import Mathlib

/-!
# Verification of the DS18B20 polling state machine

Shallow embedding of `src/src/main.cpp` (LILYGO T-Display-S3 / KY-001
digital temperature project): a three-state non-blocking polling loop
(`READ_SENSOR` / `WAIT` / `UPDATE_DISPLAY`) driven by a millisecond clock,
reading a one-wire temperature sensor and diffing the values onto a TFT
display.

Modelling choices:
* `millis()` returns an `unsigned long` (32-bit on this target); elapsed
  time `currentMillis - previousMillis` is modelled by `elapsedMillis`,
  explicit modulo `2^32` arithmetic on `Nat`.
* Temperature floats are modelled by `ℚ`; the decimal literals `0.1`,
  `-127` of the source are exact in `ℚ`.
* The TFT and sensor collaborators are modelled by an effect trace: each
  tick returns the list of `Effect`s it issues, mirroring the calls the
  source makes (`requestTemperatures`, `drawStaticScreen`,
  `updateTemperatureValues`, `showSensorError`).
-/

/-- The state machine states (`enum class State`, main.cpp lines 57-61). -/
inductive State where
  | READ_SENSOR
  | WAIT
  | UPDATE_DISPLAY
deriving DecidableEq

/-- One display-driver call issued by the sketch, at helper-function
granularity.  `fillScreen` and `headerText` are issued by
`drawStaticScreen`; `valueLabels` is its connected-only label block;
`celsiusValue`/`fahrenheitValue` are the two value rows printed by
`updateTemperatureValues`; `errorText` is printed by `showSensorError`;
`initText` is the "Initialising..." banner printed by `setup`. -/
inductive DrawCmd where
  | fillScreen
  | initText
  | headerText
  | valueLabels
  | celsiusValue (c : ℚ)
  | fahrenheitValue (f : ℚ)
  | errorText
deriving DecidableEq

/-- A side effect of one tick: a sensor-driver call or a display call. -/
inductive Effect where
  | requestConversion
  | setResolution (bits : Nat)
  | draw (c : DrawCmd)
deriving DecidableEq

/-- The global mutable variables of the sketch (main.cpp lines 63-73). -/
structure Machine where
  currentState : State
  previousMillis : Nat
  temperatureC : ℚ
  temperatureF : ℚ
  previousTemperatureC : ℚ
  valueChanged : Bool
  sensorConnected : Bool
  firstRun : Bool
deriving DecidableEq

/-- `int sensorDelayInterval = 750` (main.cpp line 66). -/
def sensorDelayInterval : Nat := 750

/-- `int sensorReadInterval = 2000` (main.cpp line 67). -/
def sensorReadInterval : Nat := 2000

/-- Modelled from the spec: the reserved sentinel float the sensor driver
returns for "disconnected/invalid" (spec §6, glossary).  The
`DallasTemperature` library constant `DEVICE_DISCONNECTED_C` (-127 °C) is
not part of this repository's sources. -/
def DEVICE_DISCONNECTED_C : ℚ := -127

/-- Modelled from the spec: `DallasTemperature::toFahrenheit`, the
"standard linear conversion (`F = C * 9/5 + 32`)" (spec §4.1).  The
library implementing it is not part of this repository's sources; over
`ℚ` the factor `1.8` is exactly `9/5`. -/
def toFahrenheit (celsius : ℚ) : ℚ := celsius * 1.8 + 32

/-- `unsigned long` subtraction `now - previous`, explicit modulo `2^32`:
the wrap-safe elapsed-time idiom of the source. -/
def elapsedMillis (now previous : Nat) : Nat :=
  (now + 4294967296 - previous) % 4294967296

/-- The initial values of the globals (main.cpp lines 64-73). -/
def initialMachine : Machine where
  currentState := State.READ_SENSOR
  previousMillis := 0
  temperatureC := 0
  temperatureF := 0
  previousTemperatureC := 0
  valueChanged := false
  sensorConnected := true
  firstRun := true

/-- `drawStaticScreen` (main.cpp lines 86-99): clears the screen, prints
the header block, and — only when `sensorConnected` — the two value
labels. -/
def drawStaticScreen (sensorConnected : Bool) : List DrawCmd :=
  [DrawCmd.fillScreen, DrawCmd.headerText] ++
    (if sensorConnected then [DrawCmd.valueLabels] else [])

/-- `updateTemperatureValues` (main.cpp lines 102-113): when connected,
prints the Celsius row then the Fahrenheit row. -/
def updateTemperatureValues (sensorConnected : Bool) (temperatureC temperatureF : ℚ) :
    List DrawCmd :=
  if sensorConnected then
    [DrawCmd.celsiusValue temperatureC, DrawCmd.fahrenheitValue temperatureF]
  else []

/-- `showSensorError` (main.cpp lines 116-120). -/
def showSensorError : List DrawCmd := [DrawCmd.errorText]

/-- `setup` (main.cpp lines 128-147): initialises the display, prints the
banner, configures the sensor, draws the initial static screen and clears
`firstRun`. -/
def setup : Machine × List Effect :=
  ({ initialMachine with firstRun := false },
   [Effect.draw DrawCmd.fillScreen, Effect.draw DrawCmd.initText,
    Effect.setResolution 12] ++
     (drawStaticScreen initialMachine.sensorConnected).map Effect.draw)

/-- `loop` (main.cpp lines 150-212): one scheduler tick.  `now` is the
value read from `millis()` at the top of the tick; `sensorRead` is the
value `sensors.getTempCByIndex(0)` would return if read on this tick
(it is consulted only on the tick that performs the post-conversion
read).  Returns the updated globals and the effects issued. -/
def tick (now : Nat) (sensorRead : ℚ) (m : Machine) : Machine × List Effect :=
  match m.currentState with
  | State.READ_SENSOR =>
      -- request a conversion, record the time, move to WAIT
      ({ m with currentState := State.WAIT, previousMillis := now },
       [Effect.requestConversion])
  | State.WAIT =>
      if sensorDelayInterval ≤ elapsedMillis now m.previousMillis then
        let temperatureC := sensorRead
        let temperatureF := toFahrenheit temperatureC
        let currentConnectionState : Bool := decide (temperatureC ≠ DEVICE_DISCONNECTED_C)
        -- `sensorConnected` is reassigned only when the status changed
        let sensorConnected : Bool :=
          if currentConnectionState ≠ m.sensorConnected then currentConnectionState
          else m.sensorConnected
        let connEffects : List Effect :=
          if currentConnectionState ≠ m.sensorConnected then
            (drawStaticScreen sensorConnected).map Effect.draw ++
              (if sensorConnected = false then showSensorError.map Effect.draw else [])
          else []
        let changed : Bool :=
          sensorConnected && decide ((0.1 : ℚ) ≤ |temperatureC - m.previousTemperatureC|)
        ({ m with
            currentState := State.UPDATE_DISPLAY,
            temperatureC := temperatureC,
            temperatureF := temperatureF,
            sensorConnected := sensorConnected,
            valueChanged := if changed then true else m.valueChanged,
            previousTemperatureC := if changed then temperatureC else m.previousTemperatureC },
         connEffects)
      else
        (m, [])
  | State.UPDATE_DISPLAY =>
      let doDraw : Bool := m.valueChanged && m.sensorConnected
      let effects : List Effect :=
        if doDraw then
          (updateTemperatureValues m.sensorConnected m.temperatureC m.temperatureF).map
            Effect.draw
        else []
      ({ m with
          currentState :=
            if sensorReadInterval ≤ elapsedMillis now m.previousMillis then
              State.READ_SENSOR
            else State.UPDATE_DISPLAY,
          valueChanged := if doDraw then false else m.valueChanged },
       effects)

/-- One scheduler-tick input: the `millis()` reading and the value the
sensor would deliver on this tick. -/
structure TickInput where
  now : Nat
  sensorValue : ℚ
deriving DecidableEq

/-- Run a list of ticks, keeping only the final machine. -/
def run (m : Machine) : List TickInput → Machine
  | [] => m
  | i :: is => run (tick i.now i.sensorValue m).1 is

/-- The machine states visited while running a list of ticks (the start
machine included). -/
def states (m : Machine) : List TickInput → List Machine
  | [] => [m]
  | i :: is => m :: states (tick i.now i.sensorValue m).1 is

/-- Is this effect one of the two value rows? -/
def isValueRowDraw : Effect → Bool
  | Effect.draw (DrawCmd.celsiusValue _) => true
  | Effect.draw (DrawCmd.fahrenheitValue _) => true
  | _ => false

/-- Number of value-row draw commands in an effect list. -/
def valueRowCount (es : List Effect) : Nat := es.countP isValueRowDraw

/-- Is this effect the header block, i.e. the marker of one full
`drawStaticScreen` repaint? -/
def isStaticLayoutDraw : Effect → Bool
  | Effect.draw DrawCmd.headerText => true
  | _ => false

/-- Number of full static-layout repaints in an effect list. -/
def staticRedrawCount (es : List Effect) : Nat := es.countP isStaticLayoutDraw

/-- Is this effect the error-row draw? -/
def isErrorRowDraw : Effect → Bool
  | Effect.draw DrawCmd.errorText => true
  | _ => false

/-- Number of error-row draws in an effect list. -/
def errorRowCount (es : List Effect) : Nat := es.countP isErrorRowDraw

/-- The transitions the phase machine is allowed to make in one tick:
`READ_SENSOR` only ever steps to `WAIT` (so `WAIT` is never skipped),
`WAIT` stays or steps to `UPDATE_DISPLAY`, and `UPDATE_DISPLAY` stays or
steps back to `READ_SENSOR`.  Each tick moves along at most one edge. -/
def phaseEdge (a b : State) : Prop :=
  (a = State.READ_SENSOR ∧ b = State.WAIT) ∨
  (a = State.WAIT ∧ (b = State.WAIT ∨ b = State.UPDATE_DISPLAY)) ∨
  (a = State.UPDATE_DISPLAY ∧ (b = State.UPDATE_DISPLAY ∨ b = State.READ_SENSOR))

instance (a b : State) : Decidable (phaseEdge a b) := by
  unfold phaseEdge
  infer_instance

/-- Fixture: the machine sitting in `WAIT` right after a `READ_SENSOR`
tick at time 0 (all other globals at their initial values). -/
def mWait : Machine := { initialMachine with currentState := State.WAIT }

/-- Fixture: the machine sitting in `UPDATE_DISPLAY` with a committed
valid reading of 20 °C whose draw is still pending. -/
def mUpdate : Machine :=
  { initialMachine with
      currentState := State.UPDATE_DISPLAY,
      temperatureC := 20,
      temperatureF := toFahrenheit 20,
      previousTemperatureC := 20,
      valueChanged := true }

/-- Fixture: a full poll cycle from startup committing a valid 0.06 °C
reading (within 0.1 °C of the initial 0 °C reference, so no redraw),
then a second cycle whose `WAIT` tick at `t = 2751` commits a valid
0.14 °C reading. -/
def closePairInputs : List TickInput :=
  [⟨0, 0⟩, ⟨750, 0.06⟩, ⟨2000, 0⟩, ⟨2001, 0⟩, ⟨2751, 0.14⟩]

/-! ## Characterisation of one tick, case by case -/

theorem tick_read (m : Machine) (now : Nat) (s : ℚ)
    (h : m.currentState = State.READ_SENSOR) :
    tick now s m =
      ({ m with currentState := State.WAIT, previousMillis := now },
       [Effect.requestConversion]) := by
  simp only [tick, h]

theorem tick_wait_early (m : Machine) (now : Nat) (s : ℚ)
    (h : m.currentState = State.WAIT)
    (hlt : elapsedMillis now m.previousMillis < sensorDelayInterval) :
    tick now s m = (m, []) := by
  simp only [tick, h]
  rw [if_neg (by omega)]

theorem tick_wait_commit (m : Machine) (now : Nat) (s : ℚ)
    (h : m.currentState = State.WAIT)
    (hE : sensorDelayInterval ≤ elapsedMillis now m.previousMillis) :
    tick now s m =
      ({ m with
          currentState := State.UPDATE_DISPLAY,
          temperatureC := s,
          temperatureF := toFahrenheit s,
          sensorConnected := decide (s ≠ DEVICE_DISCONNECTED_C),
          valueChanged :=
            if (decide (s ≠ DEVICE_DISCONNECTED_C) &&
                decide ((0.1 : ℚ) ≤ |s - m.previousTemperatureC|)) = true then true
            else m.valueChanged,
          previousTemperatureC :=
            if (decide (s ≠ DEVICE_DISCONNECTED_C) &&
                decide ((0.1 : ℚ) ≤ |s - m.previousTemperatureC|)) = true then s
            else m.previousTemperatureC },
       if decide (s ≠ DEVICE_DISCONNECTED_C) ≠ m.sensorConnected then
         (drawStaticScreen (decide (s ≠ DEVICE_DISCONNECTED_C))).map Effect.draw ++
           (if decide (s ≠ DEVICE_DISCONNECTED_C) = false then
             showSensorError.map Effect.draw
           else [])
       else []) := by
  obtain ⟨st, prev, tC, tF, pTC, vc, sc, fr⟩ := m
  obtain rfl : st = State.WAIT := h
  simp only [tick]
  rw [if_pos hE]
  cases hd : (decide ((0.1 : ℚ) ≤ |s - pTC|) : Bool) <;>
    cases hcon : (decide (s ≠ DEVICE_DISCONNECTED_C) : Bool) <;>
      cases sc <;> simp_all

theorem tick_update (m : Machine) (now : Nat) (s : ℚ)
    (h : m.currentState = State.UPDATE_DISPLAY) :
    tick now s m =
      ({ m with
          currentState :=
            if sensorReadInterval ≤ elapsedMillis now m.previousMillis then
              State.READ_SENSOR
            else State.UPDATE_DISPLAY,
          valueChanged :=
            if (m.valueChanged && m.sensorConnected) = true then false
            else m.valueChanged },
       if (m.valueChanged && m.sensorConnected) = true then
         (updateTemperatureValues m.sensorConnected m.temperatureC m.temperatureF).map
           Effect.draw
       else []) := by
  simp only [tick, h]

/-- Every single tick moves along an allowed phase edge. -/
theorem phaseEdge_tick (m : Machine) (now : Nat) (s : ℚ) :
    phaseEdge m.currentState (tick now s m).1.currentState := by
  cases hst : m.currentState with
  | READ_SENSOR =>
      rw [tick_read m now s hst]
      exact Or.inl ⟨rfl, rfl⟩
  | WAIT =>
      by_cases hE : sensorDelayInterval ≤ elapsedMillis now m.previousMillis
      · rw [tick_wait_commit m now s hst hE]
        exact Or.inr (Or.inl ⟨rfl, Or.inr rfl⟩)
      · rw [tick_wait_early m now s hst (by omega), hst]
        exact Or.inr (Or.inl ⟨rfl, Or.inl rfl⟩)
  | UPDATE_DISPLAY =>
      rw [tick_update m now s hst]
      by_cases hP : sensorReadInterval ≤ elapsedMillis now m.previousMillis
      · refine Or.inr (Or.inr ⟨rfl, Or.inr ?_⟩)
        simp [hP]
      · refine Or.inr (Or.inr ⟨rfl, Or.inl ?_⟩)
        simp [hP]

theorem states_map_head (m : Machine) (is : List TickInput) :
    ((states m is).map Machine.currentState).head? = some m.currentState := by
  cases is <;> rfl

/-- When the clock did not wrap between the two samples, the modular
elapsed time is the plain difference. -/
theorem elapsedMillis_eq_sub (now prev : Nat) (h1 : prev ≤ now)
    (h2 : now - prev < 4294967296) : elapsedMillis now prev = now - prev := by
  unfold elapsedMillis
  omega

/-! ## Claim theorems -/

/-- **C1.** For every sequence of ticks, the active phase changes only
along `READ_SENSOR → WAIT → UPDATE_DISPLAY → (READ_SENSOR or
UPDATE_DISPLAY)`: leaving `READ_SENSOR` always lands in `WAIT` (the
conversion wait is never skipped), no other transition occurs, and each
tick contributes exactly one edge of the chain, so no single tick
performs more than one phase transition. -/
theorem phase_order_every_tick_sequence (m : Machine) (is : List TickInput) :
    List.Chain' phaseEdge ((states m is).map Machine.currentState) := by
  induction is generalizing m with
  | nil => simp [states]
  | cons i is ih =>
      rw [states, List.map_cons, List.chain'_cons']
      refine ⟨?_, ih _⟩
      intro b hb
      rw [states_map_head] at hb
      obtain rfl : (tick i.now i.sensorValue m).1.currentState = b := by
        simpa using hb
      exact phaseEdge_tick m i.now i.sensorValue

/-- **C2.** The conversion-wait guarantee: `previousMillis` is stamped
with the clock at the `READ_SENSOR` (request) tick; a `WAIT` tick before
the 750 ms deadline is a strict no-op (no state change, no effect); and
whenever a `WAIT` tick does commit (moves to `UPDATE_DISPLAY`), at least
`sensorDelayInterval` milliseconds of monotonic clock have elapsed since
the request tick. -/
theorem commit_only_after_conversion_wait :
    (∀ (m : Machine) (now : Nat) (s : ℚ), m.currentState = State.READ_SENSOR →
      (tick now s m).1.previousMillis = now) ∧
    (∀ (m : Machine) (now : Nat) (s : ℚ), m.currentState = State.WAIT →
      elapsedMillis now m.previousMillis < sensorDelayInterval →
      tick now s m = (m, [])) ∧
    (∀ (m : Machine) (now : Nat) (s : ℚ), m.currentState = State.WAIT →
      (tick now s m).1.currentState = State.UPDATE_DISPLAY →
      m.previousMillis ≤ now → now - m.previousMillis < 4294967296 →
      sensorDelayInterval ≤ now - m.previousMillis) := by
  refine ⟨?_, ?_, ?_⟩
  · intro m now s h
    rw [tick_read m now s h]
  · intro m now s h hlt
    exact tick_wait_early m now s h hlt
  · intro m now s h hc hle hlt
    by_cases hE : sensorDelayInterval ≤ elapsedMillis now m.previousMillis
    · have he := elapsedMillis_eq_sub now m.previousMillis hle hlt
      omega
    · rw [tick_wait_early m now s h (by omega)] at hc
      rw [h] at hc
      exact absurd hc (by decide)

/-- Witness for C2: at `t = 700 < 750` the `WAIT` tick is a no-op; a
commit observed at `t = 750` implies 750 ms really elapsed since the
request at `t = 0`. -/
theorem commit_only_after_conversion_wait_witness :
    tick 700 20 mWait = (mWait, []) ∧
    sensorDelayInterval ≤ 750 - mWait.previousMillis :=
  ⟨commit_only_after_conversion_wait.2.1 mWait 700 20 rfl (by decide),
   commit_only_after_conversion_wait.2.2 mWait 750 20 rfl rfl
     (by decide) (by decide)⟩

/-- **C3.** The poll-period anchor: `previousMillis` is set exactly at
the `READ_SENSOR` (request) tick and is preserved by every other tick
(in particular the post-conversion commit does not reset it), and an
`UPDATE_DISPLAY` tick returns to `READ_SENSOR` exactly when
`sensorReadInterval` (2000 ms) has elapsed since that anchor. -/
theorem poll_period_anchored_at_request :
    (∀ (m : Machine) (now : Nat) (s : ℚ), m.currentState = State.READ_SENSOR →
      (tick now s m).1.previousMillis = now) ∧
    (∀ (m : Machine) (now : Nat) (s : ℚ), m.currentState ≠ State.READ_SENSOR →
      (tick now s m).1.previousMillis = m.previousMillis) ∧
    (∀ (m : Machine) (now : Nat) (s : ℚ), m.currentState = State.UPDATE_DISPLAY →
      ((tick now s m).1.currentState = State.READ_SENSOR ↔
        sensorReadInterval ≤ elapsedMillis now m.previousMillis)) := by
  refine ⟨?_, ?_, ?_⟩
  · intro m now s h
    rw [tick_read m now s h]
  · intro m now s h
    cases hst : m.currentState with
    | READ_SENSOR => exact absurd hst h
    | WAIT =>
        by_cases hE : sensorDelayInterval ≤ elapsedMillis now m.previousMillis
        · rw [tick_wait_commit m now s hst hE]
        · rw [tick_wait_early m now s hst (by omega)]
    | UPDATE_DISPLAY =>
        rw [tick_update m now s hst]
  · intro m now s h
    rw [tick_update m now s h]
    by_cases hP : sensorReadInterval ≤ elapsedMillis now m.previousMillis
    · simp [hP]
    · simp [hP]

/-- Witness for C3: a commit tick at `t = 750` preserves the anchor set
at `t = 0`, and the pending `UPDATE_DISPLAY` tick at `t = 2000` returns
to `READ_SENSOR` because 2000 ms elapsed since the anchor. -/
theorem poll_period_anchored_at_request_witness :
    (tick 750 20 mWait).1.previousMillis = mWait.previousMillis ∧
    ((tick 2000 20 mUpdate).1.currentState = State.READ_SENSOR ↔
      sensorReadInterval ≤ elapsedMillis 2000 mUpdate.previousMillis) :=
  ⟨poll_period_anchored_at_request.2.1 mWait 750 20 (by decide),
   poll_period_anchored_at_request.2.2 mUpdate 2000 20 rfl⟩

/-- **C8.** The stored Fahrenheit value is exactly
`celsius * 9/5 + 32` for every rational Celsius input (in particular on
the documented −55…125 range); in the exact-arithmetic model the
library's factor `1.8` is exactly `9/5`. -/
theorem fahrenheit_exact_linear (c : ℚ) : toFahrenheit c = c * 9 / 5 + 32 := by
  unfold toFahrenheit
  rw [show (1.8 : ℚ) = 9 / 5 by norm_num]
  ring

/-- **C9.** On every post-conversion read the Fahrenheit conversion is
applied unconditionally to the raw value before validity is classified:
the committed `temperatureC`/`temperatureF` are always `s` and
`toFahrenheit s`, and when the read returns the disconnect sentinel the
stored Fahrenheit variable holds the Fahrenheit image of the sentinel
(−196.6 °F), not an unchanged or invalid-marked value. -/
theorem sentinel_also_converted :
    (∀ (m : Machine) (now : Nat) (s : ℚ), m.currentState = State.WAIT →
      sensorDelayInterval ≤ elapsedMillis now m.previousMillis →
      (tick now s m).1.temperatureC = s ∧
      (tick now s m).1.temperatureF = toFahrenheit s) ∧
    (∀ (m : Machine) (now : Nat), m.currentState = State.WAIT →
      sensorDelayInterval ≤ elapsedMillis now m.previousMillis →
      (tick now DEVICE_DISCONNECTED_C m).1.sensorConnected = false ∧
      (tick now DEVICE_DISCONNECTED_C m).1.temperatureF = -196.6) := by
  constructor
  · intro m now s hW hE
    rw [tick_wait_commit m now s hW hE]
    exact ⟨rfl, rfl⟩
  · intro m now hW hE
    rw [tick_wait_commit m now DEVICE_DISCONNECTED_C hW hE]
    refine ⟨by simp, ?_⟩
    show toFahrenheit DEVICE_DISCONNECTED_C = -196.6
    unfold toFahrenheit DEVICE_DISCONNECTED_C
    norm_num

/-- Witness for C9: committing a −5 °C reading stores its Fahrenheit
image, and committing the sentinel at `t = 750` flips `sensorConnected`
to `false` while still storing the converted sentinel. -/
theorem sentinel_also_converted_witness :
    (tick 750 (-5) mWait).1.temperatureF = toFahrenheit (-5) ∧
    (tick 750 DEVICE_DISCONNECTED_C mWait).1.sensorConnected = false :=
  ⟨(sentinel_also_converted.1 mWait 750 (-5) rfl (by decide)).2,
   (sentinel_also_converted.2 mWait 750 rfl (by decide)).1⟩

/-- **C4.** On a commit (the `WAIT` tick that passes the 750 ms
deadline, with no update already pending), the displayed-value state is
updated if and only if the reading is valid (sensor connected) and the
new Celsius value differs from the prior committed value
(`previousTemperatureC`) by at least 0.1.  When it is updated, the
stored values equal the new reading's values and the following
`UPDATE_DISPLAY` tick draws exactly the two value rows (Celsius then
Fahrenheit); when it is not, the stored reference is unchanged and the
following tick draws nothing. -/
theorem display_values_update_iff_threshold
    (m : Machine) (now : Nat) (s : ℚ)
    (hW : m.currentState = State.WAIT)
    (hE : sensorDelayInterval ≤ elapsedMillis now m.previousMillis)
    (hv : m.valueChanged = false) :
    ((tick now s m).1.valueChanged = true ↔
      s ≠ DEVICE_DISCONNECTED_C ∧ (0.1 : ℚ) ≤ |s - m.previousTemperatureC|) ∧
    ((tick now s m).1.valueChanged = true →
      (tick now s m).1.previousTemperatureC = s ∧
      (tick now s m).1.temperatureC = s ∧
      (tick now s m).1.temperatureF = toFahrenheit s ∧
      ∀ (n2 : Nat) (s2 : ℚ),
        (tick n2 s2 (tick now s m).1).2 =
          [Effect.draw (DrawCmd.celsiusValue s),
           Effect.draw (DrawCmd.fahrenheitValue (toFahrenheit s))]) ∧
    ((tick now s m).1.valueChanged = false →
      (tick now s m).1.previousTemperatureC = m.previousTemperatureC ∧
      ∀ (n2 : Nat) (s2 : ℚ), (tick n2 s2 (tick now s m).1).2 = []) := by
  rw [tick_wait_commit m now s hW hE]
  by_cases hval : s ≠ DEVICE_DISCONNECTED_C
  · by_cases hth : (0.1 : ℚ) ≤ |s - m.previousTemperatureC|
    · refine ⟨by simp [hval, hth], fun _ => ⟨by simp [hval, hth], rfl, rfl, ?_⟩,
        fun hfalse => absurd hfalse (by simp [hval, hth])⟩
      intro n2 s2
      rw [tick_update _ n2 s2 rfl]
      simp [hval, hth, updateTemperatureValues]
    · refine ⟨by simp [hval, hth, hv], fun htrue => absurd htrue (by simp [hth, hv]),
        fun _ => ⟨by simp [hth], ?_⟩⟩
      intro n2 s2
      rw [tick_update _ n2 s2 rfl]
      simp [hth, hv]
  · refine ⟨by simp [hval, hv], fun htrue => absurd htrue (by simp [hval, hv]),
      fun _ => ⟨by simp [hval], ?_⟩⟩
    intro n2 s2
    rw [tick_update _ n2 s2 rfl]
    simp [hval, hv]

/-- Witness for C4: committing a 20 °C reading at `t = 750` from the
startup state (reference 0 °C) updates the displayed-value state iff it
is valid and at least 0.1 °C away from the reference. -/
theorem display_values_update_iff_threshold_witness :
    (tick 750 20 mWait).1.valueChanged = true ↔
      (20 : ℚ) ≠ DEVICE_DISCONNECTED_C ∧
        (0.1 : ℚ) ≤ |(20 : ℚ) - mWait.previousTemperatureC| :=
  (display_values_update_iff_threshold mWait 750 20 rfl (by decide) rfl).1

/-- **C5.** A commit whose validity differs from the current
`sensorConnected` flag triggers exactly one full static-layout redraw,
with the error row drawn exactly when the transition is to the
disconnected state; a commit without such a difference draws neither;
and the `sensorConnected` flag changes only on such commits. -/
theorem connectivity_transition_redraws_once :
    (∀ (m : Machine) (now : Nat) (s : ℚ), m.currentState = State.WAIT →
      sensorDelayInterval ≤ elapsedMillis now m.previousMillis →
      ((decide (s ≠ DEVICE_DISCONNECTED_C) ≠ m.sensorConnected →
        (tick now s m).1.sensorConnected = decide (s ≠ DEVICE_DISCONNECTED_C) ∧
        staticRedrawCount (tick now s m).2 = 1 ∧
        errorRowCount (tick now s m).2 =
          (if s = DEVICE_DISCONNECTED_C then 1 else 0)) ∧
      (decide (s ≠ DEVICE_DISCONNECTED_C) = m.sensorConnected →
        (tick now s m).1.sensorConnected = m.sensorConnected ∧
        staticRedrawCount (tick now s m).2 = 0 ∧
        errorRowCount (tick now s m).2 = 0))) ∧
    (∀ (m : Machine) (now : Nat) (s : ℚ),
      (tick now s m).1.sensorConnected ≠ m.sensorConnected →
      m.currentState = State.WAIT ∧
      sensorDelayInterval ≤ elapsedMillis now m.previousMillis ∧
      decide (s ≠ DEVICE_DISCONNECTED_C) ≠ m.sensorConnected) := by
  constructor
  · intro m now s hW hE
    rw [tick_wait_commit m now s hW hE]
    by_cases hval : s = DEVICE_DISCONNECTED_C
    · constructor
      · intro hc
        have hsc : m.sensorConnected = true := by revert hc; simp [hval]
        refine ⟨rfl, ?_, ?_⟩ <;>
          simp [hsc, hval, staticRedrawCount, errorRowCount, drawStaticScreen,
            showSensorError, isStaticLayoutDraw, isErrorRowDraw]
      · intro hc
        refine ⟨by rw [hc], ?_, ?_⟩ <;>
          simp [hc, staticRedrawCount, errorRowCount]
    · constructor
      · intro hc
        have hsc : m.sensorConnected = false := by revert hc; simp [hval]
        refine ⟨rfl, ?_, ?_⟩ <;>
          simp [hsc, hval, staticRedrawCount, errorRowCount, drawStaticScreen,
            showSensorError, isStaticLayoutDraw, isErrorRowDraw]
      · intro hc
        refine ⟨by rw [hc], ?_, ?_⟩ <;>
          simp [hc, staticRedrawCount, errorRowCount]
  · intro m now s hchanged
    cases hst : m.currentState with
    | READ_SENSOR =>
        rw [tick_read m now s hst] at hchanged
        exact absurd rfl hchanged
    | WAIT =>
        by_cases hE : sensorDelayInterval ≤ elapsedMillis now m.previousMillis
        · refine ⟨rfl, hE, ?_⟩
          rw [tick_wait_commit m now s hst hE] at hchanged
          exact hchanged
        · rw [tick_wait_early m now s hst (by omega)] at hchanged
          exact absurd rfl hchanged
    | UPDATE_DISPLAY =>
        rw [tick_update m now s hst] at hchanged
        exact absurd rfl hchanged

/-- Witness for C5: committing the sentinel at `t = 750` while the flag
is still `true` repaints the static layout once and draws the error row
once. -/
theorem connectivity_transition_redraws_once_witness :
    staticRedrawCount (tick 750 DEVICE_DISCONNECTED_C mWait).2 = 1 ∧
    errorRowCount (tick 750 DEVICE_DISCONNECTED_C mWait).2 =
      (if DEVICE_DISCONNECTED_C = DEVICE_DISCONNECTED_C then 1 else 0) :=
  ⟨((connectivity_transition_redraws_once.1 mWait 750 DEVICE_DISCONNECTED_C rfl
      (by decide)).1 (by simp [mWait, initialMachine])).2.1,
   ((connectivity_transition_redraws_once.1 mWait 750 DEVICE_DISCONNECTED_C rfl
      (by decide)).1 (by simp [mWait, initialMachine])).2.2⟩

/-- Counterexample to C6 as stated.  Two consecutive commits deliver
valid readings 0.06 °C and 0.14 °C, which differ by 0.08 < 0.1, yet the
second one triggers both value-row draws: the hysteresis check compares
against `previousTemperatureC` (the last value that caused a draw,
still the initial 0.0), not against the previous committed reading. -/
theorem close_consecutive_readings_still_redraw :
    (0.06 : ℚ) ≠ DEVICE_DISCONNECTED_C ∧
    (0.14 : ℚ) ≠ DEVICE_DISCONNECTED_C ∧
    |(0.14 : ℚ) - (0.06 : ℚ)| < 0.1 ∧
    run setup.1 (List.take 2 closePairInputs) =
      (⟨State.UPDATE_DISPLAY, 0, 0.06, toFahrenheit 0.06, 0, false, true,
        false⟩ : Machine) ∧
    run setup.1 closePairInputs =
      (⟨State.UPDATE_DISPLAY, 2001, 0.14, toFahrenheit 0.14, 0.14, true, true,
        false⟩ : Machine) ∧
    valueRowCount (tick 2752 (0.14 : ℚ) (run setup.1 closePairInputs)).2 = 2 := by
  have h1 : (tick 0 0 setup.1).1 =
      (⟨State.WAIT, 0, 0, 0, 0, false, true, false⟩ : Machine) := rfl
  have h2 : (tick 750 0.06 (⟨State.WAIT, 0, 0, 0, 0, false, true, false⟩ : Machine)).1 =
      (⟨State.UPDATE_DISPLAY, 0, 0.06, toFahrenheit 0.06, 0, false, true,
        false⟩ : Machine) := by
    rw [tick_wait_commit _ _ _ rfl (by decide)]
    norm_num [DEVICE_DISCONNECTED_C, not_le, abs_lt]
  have h3 : (tick 2000 0 (⟨State.UPDATE_DISPLAY, 0, 0.06, toFahrenheit 0.06, 0, false,
      true, false⟩ : Machine)).1 =
      (⟨State.READ_SENSOR, 0, 0.06, toFahrenheit 0.06, 0, false, true,
        false⟩ : Machine) := by
    rw [tick_update _ _ _ rfl]
    norm_num [sensorReadInterval, elapsedMillis]
  have h4 : (tick 2001 0 (⟨State.READ_SENSOR, 0, 0.06, toFahrenheit 0.06, 0, false,
      true, false⟩ : Machine)).1 =
      (⟨State.WAIT, 2001, 0.06, toFahrenheit 0.06, 0, false, true,
        false⟩ : Machine) := rfl
  have h5 : (tick 2751 0.14 (⟨State.WAIT, 2001, 0.06, toFahrenheit 0.06, 0, false,
      true, false⟩ : Machine)).1 =
      (⟨State.UPDATE_DISPLAY, 2001, 0.14, toFahrenheit 0.14, 0.14, true, true,
        false⟩ : Machine) := by
    rw [tick_wait_commit _ _ _ rfl (by decide)]
    norm_num [DEVICE_DISCONNECTED_C, le_abs]
  have hrun2 : run setup.1 (List.take 2 closePairInputs) =
      (⟨State.UPDATE_DISPLAY, 0, 0.06, toFahrenheit 0.06, 0, false, true,
        false⟩ : Machine) := by
    simp only [closePairInputs, List.take, run, h1, h2]
  have hrun : run setup.1 closePairInputs =
      (⟨State.UPDATE_DISPLAY, 2001, 0.14, toFahrenheit 0.14, 0.14, true, true,
        false⟩ : Machine) := by
    simp only [closePairInputs, run, h1, h2, h3, h4, h5]
  refine ⟨by norm_num [DEVICE_DISCONNECTED_C], by norm_num [DEVICE_DISCONNECTED_C],
    by norm_num [abs_lt], hrun2, hrun, ?_⟩
  rw [hrun, tick_update _ _ _ rfl]
  simp [updateTemperatureValues, valueRowCount, isValueRowDraw]

/-- **C6 (amended).** Applying the presenter repeatedly with an
unchanged Reading is idempotent: once an `UPDATE_DISPLAY` tick has run,
every further tick spent in `UPDATE_DISPLAY` issues zero draw commands;
and a commit of a valid reading whose Celsius value differs by less than
0.1 from the stored hysteresis reference `previousTemperatureC` (the
last value that triggered a redraw, initially 0.0 — not necessarily the
previous committed reading) produces zero value-row draws on its whole
cycle. -/
theorem presenter_idempotent_on_unchanged_reading :
    (∀ (m : Machine) (now : Nat) (s : ℚ) (n2 : Nat) (s2 : ℚ),
      m.currentState = State.UPDATE_DISPLAY →
      (tick now s m).1.currentState = State.UPDATE_DISPLAY →
      (tick n2 s2 (tick now s m).1).2 = []) ∧
    (∀ (m : Machine) (now : Nat) (s : ℚ),
      m.currentState = State.WAIT →
      sensorDelayInterval ≤ elapsedMillis now m.previousMillis →
      m.valueChanged = false →
      |s - m.previousTemperatureC| < 0.1 →
      valueRowCount (tick now s m).2 = 0 ∧
      ∀ (n2 : Nat) (s2 : ℚ), (tick n2 s2 (tick now s m).1).2 = []) := by
  constructor
  · intro m now s n2 s2 h1 h2
    rw [tick_update m now s h1] at h2 ⊢
    rw [tick_update _ n2 s2 h2]
    cases hvc : m.valueChanged <;> cases hsc : m.sensorConnected <;> simp [hvc, hsc]
  · intro m now s hW hE hv hth
    have hd : (decide ((0.1 : ℚ) ≤ |s - m.previousTemperatureC|) : Bool) = false := by
      simp
      linarith
    rw [tick_wait_commit m now s hW hE]
    constructor
    · by_cases hc : (decide (s ≠ DEVICE_DISCONNECTED_C) : Bool) = m.sensorConnected
      · simp [hc, valueRowCount]
      · by_cases hval : s = DEVICE_DISCONNECTED_C <;>
          · simp [hc, hval, valueRowCount, isValueRowDraw, drawStaticScreen,
              showSensorError]
            intro a _ hmem
            rcases hmem with rfl | rfl | rfl <;> rfl
    · intro n2 s2
      rw [tick_update _ n2 s2 rfl]
      simp [hd, hv]

/-- Witness for C6 (amended): from the startup state, spending two
consecutive ticks in `UPDATE_DISPLAY` draws nothing on the second, and
committing a 0.05 °C reading (within 0.1 of the 0 °C reference) draws
no value rows. -/
theorem presenter_idempotent_on_unchanged_reading_witness :
    (tick 900 (20 : ℚ) (tick 800 (20 : ℚ) mUpdate).1).2 = [] ∧
    valueRowCount (tick 750 (0.05 : ℚ) mWait).2 = 0 :=
  ⟨presenter_idempotent_on_unchanged_reading.1 mUpdate 800 20 900 20 rfl rfl,
   (presenter_idempotent_on_unchanged_reading.2 mWait 750 0.05 rfl (by decide) rfl
     (by norm_num [mWait, initialMachine, abs_lt])).1⟩

/-- Counterexample to C7 as stated.  The very first commit after
startup (a valid 20 °C reading at `t = 750`) draws no static layout at
all, and neither does its first `UPDATE_DISPLAY` tick: the full static
layout was already painted inside `setup`, `firstRun` is cleared there,
and the loop never consults it — there is no `hasRenderedOnce = false`
path forcing a redraw at the first commit. -/
theorem first_commit_forces_no_static_redraw :
    setup.1.firstRun = false ∧
    staticRedrawCount (tick 750 (20 : ℚ) (tick 0 0 setup.1).1).2 = 0 ∧
    staticRedrawCount
      (tick 751 (20 : ℚ) (tick 750 (20 : ℚ) (tick 0 0 setup.1).1).1).2 = 0 := by
  have h0 : (tick 0 0 setup.1).1 =
      (⟨State.WAIT, 0, 0, 0, 0, false, true, false⟩ : Machine) := rfl
  have h1 : tick 750 (20 : ℚ) (⟨State.WAIT, 0, 0, 0, 0, false, true,
      false⟩ : Machine) =
      ((⟨State.UPDATE_DISPLAY, 0, 20, toFahrenheit 20, 20, true, true,
        false⟩ : Machine), []) := by
    rw [tick_wait_commit _ _ _ rfl (by decide)]
    norm_num [DEVICE_DISCONNECTED_C, le_abs, Machine.mk.injEq]
  refine ⟨rfl, ?_, ?_⟩
  · rw [h0, h1]
    simp [staticRedrawCount]
  · rw [h0, h1]
    rw [tick_update _ _ _ rfl]
    simp [updateTemperatureValues, staticRedrawCount, isStaticLayoutDraw]

/-- **C7 (amended).** The full static layout is painted exactly once
during `setup`, before any commit, and `setup` clears `firstRun`; the
loop itself is insensitive to `firstRun` (no `hasRenderedOnce = false`
path exists in it); and the first commit after startup triggers a
static-layout draw only when its validity differs from the initial
`sensorConnected = true` flag, i.e. exactly when the reading is the
disconnect sentinel. -/
theorem static_layout_painted_in_setup_only :
    staticRedrawCount setup.2 = 1 ∧
    setup.1.firstRun = false ∧
    (∀ (m : Machine) (now : Nat) (s : ℚ) (b : Bool),
      tick now s { m with firstRun := b } =
        ({ (tick now s m).1 with firstRun := b }, (tick now s m).2)) ∧
    (∀ (n0 n1 : Nat) (s0 s1 : ℚ),
      sensorDelayInterval ≤ elapsedMillis n1 n0 →
      staticRedrawCount (tick n1 s1 (tick n0 s0 setup.1).1).2 =
        (if s1 = DEVICE_DISCONNECTED_C then 1 else 0)) := by
  refine ⟨?_, rfl, ?_, ?_⟩
  · simp [setup, staticRedrawCount, drawStaticScreen, isStaticLayoutDraw,
      initialMachine]
  · intro m now s b
    obtain ⟨st, prev, tC, tF, pTC, vc, sc, fr⟩ := m
    cases st with
    | READ_SENSOR => rfl
    | WAIT =>
        by_cases hE : sensorDelayInterval ≤ elapsedMillis now prev <;>
          simp [tick, hE]
    | UPDATE_DISPLAY => simp [tick]
  · intro n0 n1 s0 s1 hE
    have h0 : (tick n0 s0 setup.1).1 =
        (⟨State.WAIT, n0, 0, 0, 0, false, true, false⟩ : Machine) := rfl
    rw [h0]
    rw [tick_wait_commit _ n1 s1 rfl hE]
    by_cases hs : s1 = DEVICE_DISCONNECTED_C
    · simp [hs, staticRedrawCount, drawStaticScreen, showSensorError,
        isStaticLayoutDraw]
    · simp [hs, staticRedrawCount]

/-- Witness for C7 (amended): a first commit carrying the sentinel does
repaint the static layout once (by the connectivity transition, not by
any first-run flag). -/
theorem static_layout_painted_in_setup_only_witness :
    staticRedrawCount (tick 750 (-127 : ℚ) (tick 0 0 setup.1).1).2 =
      (if (-127 : ℚ) = DEVICE_DISCONNECTED_C then 1 else 0) :=
  static_layout_painted_in_setup_only.2.2.2 0 750 0 (-127) (by decide)

/-- **C10.** The hysteresis reference `previousTemperatureC` starts at
0.0 °C and changes only on a commit that sets `valueChanged` — i.e.
exactly when a value draw follows: whenever it changes it takes the new
reading's value and the next tick draws the two value rows.  Dually, a
commit (first after startup or after a reconnect) whose Celsius value
lies within 0.1 of the current reference draws no value rows, neither
on the commit tick nor on the following `UPDATE_DISPLAY` tick, leaving
the value rows unpainted after the static layout. -/
theorem hysteresis_reference_zero_and_update_on_draw_only :
    initialMachine.previousTemperatureC = 0 ∧
    (∀ (m : Machine) (now : Nat) (s : ℚ),
      (tick now s m).1.previousTemperatureC ≠ m.previousTemperatureC →
      m.currentState = State.WAIT ∧
      (tick now s m).1.valueChanged = true ∧
      (tick now s m).1.previousTemperatureC = s ∧
      (tick now s m).1.sensorConnected = true ∧
      ∀ (n2 : Nat) (s2 : ℚ),
        valueRowCount (tick n2 s2 (tick now s m).1).2 = 2) ∧
    (∀ (m : Machine) (now : Nat) (s : ℚ),
      m.currentState = State.WAIT →
      sensorDelayInterval ≤ elapsedMillis now m.previousMillis →
      m.valueChanged = false →
      |s - m.previousTemperatureC| < 0.1 →
      valueRowCount (tick now s m).2 = 0 ∧
      ∀ (n2 : Nat) (s2 : ℚ),
        valueRowCount (tick n2 s2 (tick now s m).1).2 = 0) := by
  refine ⟨rfl, ?_, ?_⟩
  · intro m now s hne
    cases hst : m.currentState with
    | READ_SENSOR =>
        rw [tick_read m now s hst] at hne
        exact absurd rfl hne
    | WAIT =>
        by_cases hE : sensorDelayInterval ≤ elapsedMillis now m.previousMillis
        · rw [tick_wait_commit m now s hst hE] at hne ⊢
          cases hc : (decide (s ≠ DEVICE_DISCONNECTED_C) &&
              decide ((0.1 : ℚ) ≤ |s - m.previousTemperatureC|) : Bool)
          · rw [hc] at hne
            simp at hne
          · have hconn : (decide (s ≠ DEVICE_DISCONNECTED_C) : Bool) = true :=
              (Bool.and_eq_true ..).mp hc |>.1
            refine ⟨rfl, by simp [hc], by simp [hc], by simp [hconn], ?_⟩
            intro n2 s2
            rw [tick_update _ n2 s2 rfl]
            simp [hc, hconn, updateTemperatureValues, valueRowCount,
              isValueRowDraw]
        · rw [tick_wait_early m now s hst (by omega)] at hne
          exact absurd rfl hne
    | UPDATE_DISPLAY =>
        rw [tick_update m now s hst] at hne
        exact absurd rfl hne
  · intro m now s hW hE hv hth
    have hd : (decide ((0.1 : ℚ) ≤ |s - m.previousTemperatureC|) : Bool) = false := by
      simp
      linarith
    rw [tick_wait_commit m now s hW hE]
    constructor
    · by_cases hc : (decide (s ≠ DEVICE_DISCONNECTED_C) : Bool) = m.sensorConnected
      · simp [hc, valueRowCount]
      · by_cases hval : s = DEVICE_DISCONNECTED_C <;>
          · simp [hc, hval, valueRowCount, isValueRowDraw, drawStaticScreen,
              showSensorError]
            intro a _ hmem
            rcases hmem with rfl | rfl | rfl <;> rfl
    · intro n2 s2
      rw [tick_update _ n2 s2 rfl]
      simp [hd, hv, valueRowCount]

/-- Witness for C10: committing a first reading of 0.09 °C (within 0.1
of the initial 0 °C reference) at `t = 750` draws no value rows. -/
theorem hysteresis_reference_zero_and_update_on_draw_only_witness :
    valueRowCount (tick 750 (0.09 : ℚ) mWait).2 = 0 :=
  (hysteresis_reference_zero_and_update_on_draw_only.2.2 mWait 750 0.09 rfl
    (by decide) rfl (by norm_num [mWait, initialMachine, abs_lt])).1
